import Mathlib

/-!
Shallow embedding of `src/type.py` (the terminal-type typing test).

Modelling conventions:
* Python `float` timestamps (`time.time()`) are modelled as `ℚ`; the clock
  value `now` is passed explicitly to every operation that reads it.
* Python `int` counters that start at `0` and are only ever incremented are
  modelled as `ℕ`; the test duration (taken from the CLI and possibly
  non-positive) is modelled as `ℤ`, as is the countdown derived from it.
* Python `str.split()` (split on whitespace runs, dropping empty pieces),
  `str.join`, `str * n`, truthiness of `Optional[float]`, and `int()`
  truncation toward zero are reproduced by the `py*` helpers below.
* Fallible Python code (raising `ZeroDivisionError` / `TypeError`) is
  modelled with `Option`.
* The Textual widget content set by `self.update(...)` is modelled as the
  `display` field of the state; `random.sample(SENTENCES, k=len(SENTENCES))`
  is a uniformly chosen permutation of `SENTENCES`, modelled by passing the
  chosen permutation as an explicit argument.
-/

/-- Python `int(x)` for a real-valued `x`: truncation toward zero. -/
def pyTrunc (q : ℚ) : ℤ := if 0 ≤ q then ⌊q⌋ else -⌊-q⌋

/-- Rounding half to even, as used by Python float formatting (`.0f`, `.2f`). -/
def roundHalfEven (q : ℚ) : ℤ :=
  if q - ⌊q⌋ = 1 / 2 then (if Even ⌊q⌋ then ⌊q⌋ else ⌊q⌋ + 1) else round q

/-- Python `f"{q:.0f}"`: round half to even to an integer, print it. -/
def pyFormat0f (q : ℚ) : String := toString (roundHalfEven q)

/-- Python `f"{q:.2f}"` for non-negative `q`: round `q * 100` half to even,
then print with two decimal digits. -/
def pyFormat2f (q : ℚ) : String :=
  let n : ℤ := roundHalfEven (q * 100)
  toString (n / 100) ++ "." ++ (if n % 100 < 10 then "0" else "") ++ toString (n % 100)

/-- Python `s.strip()` (no argument): remove leading and trailing
whitespace. -/
def pyStrip (s : String) : String :=
  String.mk ((s.toList.dropWhile Char.isWhitespace).reverse.dropWhile Char.isWhitespace).reverse

/-- Python `sep.join(parts)`. -/
def pyJoin (sep : String) : List String → String
  | [] => ""
  | [x] => x
  | x :: y :: xs => x ++ sep ++ pyJoin sep (y :: xs)

/-- Worker for Python `str.split()`: splits a character list on whitespace
runs, dropping empty pieces; `acc` holds the reversed current word. -/
def wordsAux : List Char → List Char → List (List Char)
  | [], acc => if acc.isEmpty then [] else [acc.reverse]
  | c :: rest, acc =>
    if c.isWhitespace then
      if acc.isEmpty then wordsAux rest [] else acc.reverse :: wordsAux rest []
    else wordsAux rest (c :: acc)

/-- Python `s.split()` (no separator argument): split on whitespace runs,
with no empty strings in the result. -/
def pySplit (s : String) : List String :=
  (wordsAux s.toList []).map (fun l => String.mk l)

/-- Python `s * n` for a natural repeat count. -/
def pyRepeatN : String → ℕ → String
  | _, 0 => ""
  | s, n + 1 => s ++ pyRepeatN s n

/-- Python `s * n` for an integer repeat count (non-positive gives `""`). -/
def pyRepeat (s : String) (n : ℤ) : String := pyRepeatN s n.toNat

/-- Python truthiness of an `Optional[float]`: `None` and `0.0` are falsy. -/
def pyTruthy : Option ℚ → Prop
  | none => False
  | some v => v ≠ 0

instance : DecidablePred pyTruthy := fun o => by
  cases o with
  | none => exact isFalse (fun h => h)
  | some v => exact (inferInstance : Decidable (v ≠ 0))

/-- The fixed sentence pool of `src/type.py`. -/
def SENTENCES : List String :=
  ["The quick brown fox jumps over the lazy dog.",
   "A journey of a thousand miles begins with a single step.",
   "To be or not to be, that is the question.",
   "All that glitters is not gold.",
   "Where there\x27s a will, there\x27s a way.",
   "Actions speak louder than words.",
   "Knowledge is power.",
   "Practice makes perfect.",
   "Time flies like an arrow; fruit flies like a banana.",
   "Better late than never."]

/-- `DEFAULT_TIME = 60`. -/
def DEFAULT_TIME : ℤ := 60

/-- The mutable state of the `TypingTest` widget (class `TypingTest` in
`src/type.py`).  The `timer_task` handle and the `debug` flag gate only
asynchronous scheduling and notification plumbing and carry no session
state; `display` models the widget content set through `self.update`. -/
structure TypingTest where
  test_duration : ℤ
  countdown : ℤ
  text : String
  words : List String
  current_word_index : ℕ
  start_time : Option ℚ
  words_typed : ℕ
  correct_words : ℕ
  incorrect_words : ℕ
  total_keystrokes : ℕ
  display : String
deriving Repr, DecidableEq

namespace TypingTest

/-- `generate_text`: join a random permutation `perm` of `SENTENCES`
(the result of `random.sample(SENTENCES, k=len(SENTENCES))`) with spaces. -/
def generate_text (perm : List String) : String := pyJoin " " perm

/-- `TypingTest.__init__(test_duration, debug)`: the session as constructed.
No validation of `test_duration` is performed by the source. -/
def init (test_duration : ℤ) (perm : List String) : TypingTest :=
  let text := generate_text perm
  { test_duration := test_duration
    countdown := test_duration
    text := text
    words := pySplit text
    current_word_index := 0
    start_time := none
    words_typed := 0
    correct_words := 0
    incorrect_words := 0
    total_keystrokes := 0
    display := "" }

/-- `update_content`: the widget content rebuilt from `words` and
`current_word_index` (pure read; it never mutates `words`). -/
def update_content_str (words : List String) (idx : ℕ) : String :=
  let content :=
    if idx < words.length then "[gray]" ++ words.getD idx "" ++ "[/gray] " else ""
  let content := content ++ pyJoin " " (words.drop (idx + 1))
  let content :=
    if 0 < idx then pyJoin " " (words.take idx) ++ " " ++ content else content
  pyStrip content

/-- `check_word(typed_word)` at clock value `now`, with `refill` the
permutation used by `generate_text` if the word list must be extended. -/
def check_word (s : TypingTest) (typed_word : String) (now : ℚ) (refill : List String) :
    TypingTest :=
  let total_keystrokes := s.total_keystrokes + typed_word.length + 1
  let start_time := if pyTruthy s.start_time then s.start_time else some now
  let expected := s.words.getD s.current_word_index ""
  let correct := pyStrip typed_word = expected
  let correct_words := if correct then s.correct_words + 1 else s.correct_words
  let incorrect_words := if correct then s.incorrect_words else s.incorrect_words + 1
  let marked :=
    if correct then "[green]" ++ expected ++ "[/green]" else "[red]" ++ expected ++ "[/red]"
  let words := s.words.set s.current_word_index marked
  let idx := s.current_word_index + 1
  let words_typed := s.words_typed + 1
  let words := if words.length ≤ idx then words ++ pySplit (generate_text refill) else words
  { s with
    total_keystrokes := total_keystrokes
    start_time := start_time
    correct_words := correct_words
    incorrect_words := incorrect_words
    words := words
    current_word_index := idx
    words_typed := words_typed
    display := update_content_str words idx }

/-- `calculate_wpm` at clock value `now`.  When the clock has started and
`now` equals the start instant, the source divides by zero
(`ZeroDivisionError`), modelled as `none`. -/
def calculate_wpm (s : TypingTest) (now : ℚ) : Option ℤ :=
  if pyTruthy s.start_time then
    let elapsed := now - (s.start_time.getD 0)
    let minutes := elapsed / 60
    if minutes = 0 then none else some (pyTrunc ((s.words_typed : ℚ) / minutes))
  else some 0

/-- `start_countdown` at clock value `now`: sets the start instant if the
clock is unstarted (the spawned timer task is external scheduling). -/
def start_countdown (s : TypingTest) (now : ℚ) : TypingTest :=
  if pyTruthy s.start_time then s else { s with start_time := some now }

/-- `wpm_to_percentile(wpm)`: the fixed piecewise curve of the source. -/
def wpm_to_percentile (wpm : ℚ) : ℚ :=
  if wpm < 30 then max (wpm / 30 * 25) 1
  else if wpm < 60 then 25 + (wpm - 30) / 30 * 25
  else if wpm < 90 then 50 + (wpm - 60) / 30 * 25
  else min (75 + (wpm - 90) / 30 * 25) 99

/-- The bar line of `create_percentile_graph`: `filled` cells `█`, then a
`▒` marker cell and `░` padding when not full. -/
def graph_bar (wpm : ℤ) : String :=
  let total_width : ℤ := 24
  let filled := min (pyTrunc ((wpm : ℚ) / 5)) total_width
  let bar := pyRepeat "█" filled
  if filled < total_width then bar ++ "▒" ++ pyRepeat "░" (total_width - filled - 1) else bar

/-- The marker line of `create_percentile_graph`. -/
def graph_marker (wpm : ℤ) : String :=
  pyRepeat " " (min (pyTrunc ((wpm : ℚ) / 5)) 24) ++ "▲"

/-- The qualitative comment of `create_percentile_graph`, bucketed by the
percentile derived from `wpm`. -/
def graph_comment (wpm : ℤ) : String :=
  let percentile := wpm_to_percentile (wpm : ℚ)
  if percentile < 25 then "Keep practicing! You\x27re on your way to improvement."
  else if percentile < 50 then "Good effort! You\x27re making progress."
  else if percentile < 75 then "Great job! You\x27re above average."
  else "Excellent! You\x27re among the top performers."

/-- `create_percentile_graph(wpm)`: pure function of `wpm` assembling the
header, the bar, the marker and the percentile comment. -/
def create_percentile_graph (wpm : ℤ) : String :=
  "Your performance:\n" ++
  "0    30   60   90   120 WPM\n" ++
  "│    │    │    │    │\n" ++
  graph_bar wpm ++ "│\n" ++
  "│    │    │    │    │\n" ++
  graph_marker wpm ++ "\n" ++
  "Your WPM: " ++ toString wpm ++ " (Estimated " ++
    pyFormat0f (wpm_to_percentile (wpm : ℚ)) ++ "th percentile)\n\n" ++
  graph_comment wpm

end TypingTest

/-- The values `show_end_screen` computes and renders (the session result of
the specification): final WPM, accuracy, word counts, keystrokes, graph. -/
structure SessionResult where
  wpm : ℤ
  accuracy : ℚ
  correct_words : ℕ
  incorrect_words : ℕ
  total_keystrokes : ℕ
  graph : String
deriving Repr, DecidableEq

namespace TypingTest

/-- The result values computed by `show_end_screen` at clock value `now`
(`none` when `calculate_wpm` raises). -/
def sessionResult (s : TypingTest) (now : ℚ) : Option SessionResult :=
  (s.calculate_wpm now).map fun final_wpm =>
    let total_words := s.correct_words + s.incorrect_words
    { wpm := final_wpm
      accuracy :=
        if 0 < total_words then ((s.correct_words : ℚ) / (total_words : ℚ)) * 100 else 0
      correct_words := s.correct_words
      incorrect_words := s.incorrect_words
      total_keystrokes := s.total_keystrokes
      graph := create_percentile_graph final_wpm }

/-- The `end_message` f-string of `show_end_screen`, rendered from the
computed result values. -/
def end_message (r : SessionResult) : String :=
  "\n    Time\x27s up! Here are your results:\n\n    Final WPM: " ++ toString r.wpm ++
  "\n    Accuracy: " ++ pyFormat2f r.accuracy ++ "%\n    Correct words: " ++
  toString r.correct_words ++ "\n    Incorrect words: " ++ toString r.incorrect_words ++
  "\n    Total keystrokes: " ++ toString r.total_keystrokes ++ "\n\n    " ++ r.graph ++
  "\n        "

/-- `show_end_screen` at clock value `now`: renders the result into the
widget content. -/
def show_end_screen (s : TypingTest) (now : ℚ) : Option TypingTest :=
  (s.sessionResult now).map fun r => { s with display := end_message r }

/-- `update_countdown` at clock value `now`: recompute `countdown`; at zero,
show the end screen.  Calling it with an unstarted clock raises
(`time.time() - None` is a `TypeError`), modelled as `none`. -/
def update_countdown (s : TypingTest) (now : ℚ) : Option TypingTest :=
  match s.start_time with
  | none => none
  | some st =>
    let elapsed := pyTrunc (now - st)
    let s' := { s with countdown := max (s.test_duration - elapsed) 0 }
    if s'.countdown = 0 then s'.show_end_screen now else some s'

end TypingTest

namespace TypingTest

/-! Projection lemmas: how each operation transforms each field. -/

theorem pyTruthy_none : pyTruthy none ↔ False := Iff.rfl

theorem pyTruthy_some (v : ℚ) : pyTruthy (some v) ↔ v ≠ 0 := Iff.rfl

theorem check_word_test_duration (s : TypingTest) (w : String) (now : ℚ) (r : List String) :
    (s.check_word w now r).test_duration = s.test_duration := rfl

theorem check_word_countdown (s : TypingTest) (w : String) (now : ℚ) (r : List String) :
    (s.check_word w now r).countdown = s.countdown := rfl

theorem check_word_words_typed (s : TypingTest) (w : String) (now : ℚ) (r : List String) :
    (s.check_word w now r).words_typed = s.words_typed + 1 := rfl

theorem check_word_current_word_index (s : TypingTest) (w : String) (now : ℚ)
    (r : List String) :
    (s.check_word w now r).current_word_index = s.current_word_index + 1 := rfl

theorem check_word_total_keystrokes (s : TypingTest) (w : String) (now : ℚ)
    (r : List String) :
    (s.check_word w now r).total_keystrokes = s.total_keystrokes + w.length + 1 := rfl

theorem check_word_start_time (s : TypingTest) (w : String) (now : ℚ) (r : List String) :
    (s.check_word w now r).start_time =
      if pyTruthy s.start_time then s.start_time else some now := rfl

theorem check_word_correct_words (s : TypingTest) (w : String) (now : ℚ) (r : List String) :
    (s.check_word w now r).correct_words =
      if pyStrip w = s.words.getD s.current_word_index "" then s.correct_words + 1
      else s.correct_words := rfl

theorem check_word_incorrect_words (s : TypingTest) (w : String) (now : ℚ)
    (r : List String) :
    (s.check_word w now r).incorrect_words =
      if pyStrip w = s.words.getD s.current_word_index "" then s.incorrect_words
      else s.incorrect_words + 1 := rfl

/-- The word a `check_word` call writes into the slot at the cursor. -/
def marked_word (expected typed : String) : String :=
  if pyStrip typed = expected then "[green]" ++ expected ++ "[/green]"
  else "[red]" ++ expected ++ "[/red]"

theorem check_word_words (s : TypingTest) (w : String) (now : ℚ) (r : List String) :
    (s.check_word w now r).words =
      (let ws := s.words.set s.current_word_index
          (marked_word (s.words.getD s.current_word_index "") w)
       if ws.length ≤ s.current_word_index + 1 then ws ++ pySplit (generate_text r)
       else ws) := rfl

theorem start_countdown_def (s : TypingTest) (now : ℚ) :
    s.start_countdown now =
      if pyTruthy s.start_time then s else { s with start_time := some now } := rfl

theorem calculate_wpm_not_started (s : TypingTest) (now : ℚ)
    (h : ¬ pyTruthy s.start_time) : s.calculate_wpm now = some 0 := by
  simp [calculate_wpm, h]

theorem calculate_wpm_started (s : TypingTest) (now st : ℚ) (h : s.start_time = some st)
    (hst : st ≠ 0) (hne : now ≠ st) :
    s.calculate_wpm now = some (pyTrunc ((s.words_typed : ℚ) / ((now - st) / 60))) := by
  have hz : (now - st) / 60 ≠ 0 := by
    intro hc
    rcases div_eq_zero_iff.mp hc with h1 | h1
    · exact hne (sub_eq_zero.mp h1)
    · norm_num at h1
  simp [calculate_wpm, h, pyTruthy_some, hst, hz]

theorem calculate_wpm_div_by_zero (s : TypingTest) (st : ℚ) (h : s.start_time = some st)
    (hst : st ≠ 0) : s.calculate_wpm st = none := by
  simp [calculate_wpm, h, pyTruthy_some, hst]

theorem sessionResult_of_wpm (s : TypingTest) (now : ℚ) (wpm : ℤ)
    (h : s.calculate_wpm now = some wpm) :
    s.sessionResult now = some
      { wpm := wpm
        accuracy :=
          if 0 < s.correct_words + s.incorrect_words then
            ((s.correct_words : ℚ) / ((s.correct_words + s.incorrect_words : ℕ) : ℚ)) * 100
          else 0
        correct_words := s.correct_words
        incorrect_words := s.incorrect_words
        total_keystrokes := s.total_keystrokes
        graph := create_percentile_graph wpm } := by
  simp [sessionResult, h]

theorem show_end_screen_of_result (s : TypingTest) (now : ℚ) (r : SessionResult)
    (h : s.sessionResult now = some r) :
    s.show_end_screen now = some { s with display := end_message r } := by
  simp [show_end_screen, h]

theorem update_countdown_not_started (s : TypingTest) (now : ℚ) (h : s.start_time = none) :
    s.update_countdown now = none := by
  simp [update_countdown, h]

theorem update_countdown_running (s : TypingTest) (now st : ℚ) (h : s.start_time = some st)
    (hd : 0 < s.test_duration - pyTrunc (now - st)) :
    s.update_countdown now =
      some { s with countdown := s.test_duration - pyTrunc (now - st) } := by
  have hmax : max (s.test_duration - pyTrunc (now - st)) 0 =
      s.test_duration - pyTrunc (now - st) := max_eq_left (le_of_lt hd)
  simp [update_countdown, h, hmax]
  omega

theorem update_countdown_ended (s : TypingTest) (now st : ℚ) (h : s.start_time = some st)
    (hd : s.test_duration - pyTrunc (now - st) ≤ 0) (r : SessionResult)
    (hr : s.sessionResult now = some r) :
    s.update_countdown now = some { s with countdown := 0, display := end_message r } := by
  have hmax : max (s.test_duration - pyTrunc (now - st)) 0 = 0 := max_eq_right hd
  have hs2 : ({ s with countdown := (0:ℤ) } : TypingTest).sessionResult now = some r := hr
  have hgoal : s.update_countdown now =
      ({ s with countdown := (0:ℤ) } : TypingTest).show_end_screen now := by
    unfold update_countdown
    rw [h]
    dsimp only
    rw [hmax]
    simp
  rw [hgoal, show_end_screen_of_result _ now r hs2]

theorem update_countdown_preserves (s t : TypingTest) (now : ℚ)
    (h : s.update_countdown now = some t) :
    t.correct_words = s.correct_words ∧ t.incorrect_words = s.incorrect_words ∧
    t.words_typed = s.words_typed ∧ t.total_keystrokes = s.total_keystrokes ∧
    t.current_word_index = s.current_word_index ∧ t.words = s.words ∧
    t.start_time = s.start_time ∧ t.test_duration = s.test_duration := by
  rcases hs : s.start_time with _ | st
  · rw [update_countdown_not_started s now hs] at h; cases h
  · unfold update_countdown at h
    rw [hs] at h
    dsimp only at h
    split at h
    · unfold show_end_screen at h
      rw [Option.map_eq_some'] at h
      obtain ⟨a, -, h2⟩ := h
      subst h2
      simp [hs]
    · simp only [Option.some.injEq] at h
      subst h
      simp [hs]

end TypingTest

/-! Facts about the text generator: every generated batch is non-empty and
free of the `[` markup character. -/

theorem toList_eq_data (s : String) : s.toList = s.data := rfl

theorem toList_append (a b : String) : (a ++ b).toList = a.toList ++ b.toList :=
  String.data_append a b

theorem toList_mk (l : List Char) : (String.mk l).toList = l := rfl

theorem wordsAux_ne_nil_of_acc (l : List Char) (acc : List Char) (h : ¬ acc.isEmpty) :
    wordsAux l acc ≠ [] := by
  induction l generalizing acc with
  | nil => simp [wordsAux, h]
  | cons c rest ih =>
    simp only [wordsAux]
    by_cases hw : c.isWhitespace
    · rw [if_pos hw]
      rw [if_neg h]
      exact List.cons_ne_nil _ _
    · rw [if_neg hw]
      exact ih (c :: acc) (by simp)

theorem wordsAux_ne_nil (l : List Char) (acc : List Char)
    (h : ∃ c ∈ l, ¬ c.isWhitespace) : wordsAux l acc ≠ [] := by
  induction l generalizing acc with
  | nil => simp at h
  | cons c rest ih =>
    simp only [wordsAux]
    by_cases hw : c.isWhitespace
    · rw [if_pos hw]
      obtain ⟨d, hd, hdw⟩ := h
      rcases List.mem_cons.mp hd with rfl | hd2
      · exact absurd hw hdw
      · by_cases ha : acc.isEmpty
        · rw [if_pos ha]
          exact ih [] ⟨d, hd2, hdw⟩
        · rw [if_neg ha]
          exact List.cons_ne_nil _ _
    · rw [if_neg hw]
      exact wordsAux_ne_nil_of_acc rest (c :: acc) (by simp)

theorem mem_of_mem_wordsAux (l : List Char) (acc w : List Char) (hw : w ∈ wordsAux l acc)
    (c : Char) (hc : c ∈ w) : c ∈ l ∨ c ∈ acc := by
  induction l generalizing acc with
  | nil =>
    by_cases ha : acc.isEmpty
    · simp [wordsAux, ha] at hw
    · simp [wordsAux, ha] at hw
      subst hw
      exact Or.inr (List.mem_reverse.mp hc)
  | cons c0 rest ih =>
    simp only [wordsAux] at hw
    by_cases hws : c0.isWhitespace
    · rw [if_pos hws] at hw
      by_cases ha : acc.isEmpty
      · rw [if_pos ha] at hw
        rcases ih [] hw with h | h
        · exact Or.inl (List.mem_cons_of_mem _ h)
        · simp at h
      · rw [if_neg ha] at hw
        rcases List.mem_cons.mp hw with rfl | hw2
        · exact Or.inr (List.mem_reverse.mp hc)
        · rcases ih [] hw2 with h | h
          · exact Or.inl (List.mem_cons_of_mem _ h)
          · simp at h
    · rw [if_neg hws] at hw
      rcases ih (c0 :: acc) hw with h | h
      · exact Or.inl (List.mem_cons_of_mem _ h)
      · rcases List.mem_cons.mp h with rfl | h2
        · exact Or.inl (List.mem_cons_self _ _)
        · exact Or.inr h2

theorem pyJoin_cons_cons (sep x y : String) (xs : List String) :
    pyJoin sep (x :: y :: xs) = x ++ sep ++ pyJoin sep (y :: xs) := rfl

theorem mem_toList_head_pyJoin (sep x : String) (xs : List String) (c : Char)
    (hc : c ∈ x.toList) : c ∈ (pyJoin sep (x :: xs)).toList := by
  cases xs with
  | nil => exact hc
  | cons y ys =>
    rw [pyJoin_cons_cons, toList_append, toList_append]
    exact List.mem_append_left _ (List.mem_append_left _ hc)

theorem mem_pyJoin_toList (sep : String) (parts : List String) (c : Char)
    (h : c ∈ (pyJoin sep parts).toList) :
    c ∈ sep.toList ∨ ∃ p ∈ parts, c ∈ p.toList := by
  induction parts with
  | nil => simp [pyJoin, toList_eq_data] at h
  | cons x xs ih =>
    cases xs with
    | nil => exact Or.inr ⟨x, List.mem_cons_self _ _, h⟩
    | cons y ys =>
      rw [pyJoin_cons_cons, toList_append, toList_append] at h
      rcases List.mem_append.mp h with h1 | h1
      · rcases List.mem_append.mp h1 with h2 | h2
        · exact Or.inr ⟨x, List.mem_cons_self _ _, h2⟩
        · exact Or.inl h2
      · rcases ih h1 with h2 | ⟨p, hp, hcp⟩
        · exact Or.inl h2
        · exact Or.inr ⟨p, List.mem_cons_of_mem _ hp, hcp⟩

theorem sentences_no_bracket : ∀ t ∈ SENTENCES, ('[' : Char) ∉ t.toList := by decide

theorem sentences_have_ink : ∀ t ∈ SENTENCES, ∃ c ∈ t.toList, ¬ c.isWhitespace := by decide

theorem sentences_ne_nil : SENTENCES ≠ [] := by decide

theorem pySplit_generate_text_ne_nil (perm : List String) (hp : perm.Perm SENTENCES) :
    pySplit (TypingTest.generate_text perm) ≠ [] := by
  have hne : perm ≠ [] := by
    intro h
    subst h
    exact sentences_ne_nil hp.symm.eq_nil
  obtain ⟨x, xs, rfl⟩ := List.exists_cons_of_ne_nil hne
  have hx : x ∈ SENTENCES := hp.mem_iff.mp (List.mem_cons_self _ _)
  obtain ⟨c, hc, hcw⟩ := sentences_have_ink x hx
  have hcj : c ∈ (TypingTest.generate_text (x :: xs)).toList :=
    mem_toList_head_pyJoin " " x xs c hc
  unfold pySplit
  intro hnil
  exact wordsAux_ne_nil _ [] ⟨c, hcj, hcw⟩ (List.map_eq_nil_iff.mp hnil)

theorem no_bracket_pySplit_generate_text (perm : List String) (hp : perm.Perm SENTENCES) :
    ∀ w ∈ pySplit (TypingTest.generate_text perm), ('[' : Char) ∉ w.toList := by
  intro w hw hbr
  unfold pySplit at hw
  obtain ⟨lw, hlw, rfl⟩ := List.mem_map.mp hw
  rw [toList_mk] at hbr
  rcases mem_of_mem_wordsAux _ [] lw hlw '[' hbr with h | h
  · rcases mem_pyJoin_toList " " perm '[' h with h2 | ⟨p, hpp, hbp⟩
    · simp [toList_eq_data] at h2
    · exact sentences_no_bracket p (hp.mem_iff.mp hpp) hbp
  · simp at h

namespace TypingTest

/-- The sessions reachable by the program: construction with some random
permutation of `SENTENCES`, then any interleaving of `check_word` (word
submission), `start_countdown` (explicit clock start) and `update_countdown`
(timer tick) calls. -/
inductive Reachable : TypingTest → Prop where
  | init (d : ℤ) (perm : List String) (hp : perm.Perm SENTENCES) :
      Reachable (TypingTest.init d perm)
  | submit {s : TypingTest} (w : String) (now : ℚ) (perm : List String)
      (hp : perm.Perm SENTENCES) (h : Reachable s) : Reachable (s.check_word w now perm)
  | start {s : TypingTest} (now : ℚ) (h : Reachable s) : Reachable (s.start_countdown now)
  | tick {s t : TypingTest} (now : ℚ) (h : Reachable s)
      (hu : s.update_countdown now = some t) : Reachable t

/-- One mutation step of a session: a `check_word`, a `start_countdown`, or a
successful `update_countdown`. -/
inductive StepRel : TypingTest → TypingTest → Prop where
  | submit (s : TypingTest) (w : String) (now : ℚ) (perm : List String) :
      StepRel s (s.check_word w now perm)
  | start (s : TypingTest) (now : ℚ) : StepRel s (s.start_countdown now)
  | tick (s t : TypingTest) (now : ℚ) (hu : s.update_countdown now = some t) : StepRel s t


/-- The session invariant: the counter identities, the refill invariant
(the cursor always points inside the stream) and markup-freeness of every
slot at or beyond the cursor. -/
def Inv (s : TypingTest) : Prop :=
  s.correct_words + s.incorrect_words = s.words_typed ∧
  s.current_word_index = s.words_typed ∧
  s.current_word_index < s.words.length ∧
  ∀ i : ℕ, s.current_word_index ≤ i → ∀ x : String, s.words[i]? = some x →
    ('[' : Char) ∉ x.toList

theorem mem_of_getElem_opt {α : Type} (l : List α) (i : ℕ) (x : α)
    (h : l[i]? = some x) : x ∈ l := by
  obtain ⟨hlt, hx⟩ := List.getElem?_eq_some_iff.mp h
  exact hx ▸ List.getElem_mem _

theorem inv_init (d : ℤ) (perm : List String) (hp : perm.Perm SENTENCES) :
    Inv (init d perm) := by
  refine ⟨rfl, rfl, ?_, ?_⟩
  · exact List.length_pos.mpr (pySplit_generate_text_ne_nil perm hp)
  · intro i _ x hx
    exact no_bracket_pySplit_generate_text perm hp x (mem_of_getElem_opt _ i x hx)

theorem inv_check_word (s : TypingTest) (hInv : Inv s) (w : String) (now : ℚ)
    (perm : List String) (hp : perm.Perm SENTENCES) : Inv (s.check_word w now perm) := by
  obtain ⟨h1, h2, h3, h4⟩ := hInv
  have hb : 0 < (pySplit (generate_text perm)).length :=
    List.length_pos.mpr (pySplit_generate_text_ne_nil perm hp)
  have hsetlen :
      (s.words.set s.current_word_index
        (marked_word (s.words.getD s.current_word_index "") w)).length = s.words.length :=
    List.length_set _ _ _
  refine ⟨?_, ?_, ?_, ?_⟩
  · rw [check_word_correct_words, check_word_incorrect_words, check_word_words_typed]
    split <;> omega
  · rw [check_word_current_word_index, h2, check_word_words_typed]
  · rw [check_word_current_word_index, check_word_words]
    dsimp only
    split
    · rw [List.length_append]
      omega
    · rename_i hlt
      rw [hsetlen] at hlt ⊢
      omega
  · intro i hi x hx
    rw [check_word_current_word_index] at hi
    rw [check_word_words] at hx
    dsimp only at hx
    split at hx
    · by_cases hilt :
          i < (s.words.set s.current_word_index
            (marked_word (s.words.getD s.current_word_index "") w)).length
      · rw [List.getElem?_append_left hilt, List.getElem?_set_ne (by omega)] at hx
        exact h4 i (by omega) x hx
      · rw [List.getElem?_append_right (le_of_not_lt hilt)] at hx
        exact no_bracket_pySplit_generate_text perm hp x (mem_of_getElem_opt _ _ x hx)
    · rw [List.getElem?_set_ne (by omega)] at hx
      exact h4 i (by omega) x hx

theorem inv_start_countdown (s : TypingTest) (hInv : Inv s) (now : ℚ) :
    Inv (s.start_countdown now) := by
  rw [start_countdown_def]
  split
  · exact hInv
  · exact hInv

theorem inv_tick (s t : TypingTest) (hInv : Inv s) (now : ℚ)
    (hu : s.update_countdown now = some t) : Inv t := by
  obtain ⟨e1, e2, e3, e4, e5, e6, e7, e8⟩ := update_countdown_preserves s t now hu
  obtain ⟨h1, h2, h3, h4⟩ := hInv
  refine ⟨?_, ?_, ?_, ?_⟩
  · rw [e1, e2, e3]; exact h1
  · rw [e5, e3]; exact h2
  · rw [e5, e6]; exact h3
  · intro i hi x hx
    rw [e5] at hi
    rw [e6] at hx
    exact h4 i hi x hx

/-- Every reachable session satisfies the invariant. -/
theorem reachable_inv (s : TypingTest) (h : Reachable s) : Inv s := by
  induction h with
  | init d perm hp => exact inv_init d perm hp
  | submit w now perm hp h ih => exact inv_check_word _ ih w now perm hp
  | start now h ih => exact inv_start_countdown _ ih now
  | tick now h hu ih => exact inv_tick _ _ ih now hu

end TypingTest

/-! Claim theorems. -/

open TypingTest

/-- A concrete session (duration 60, identity permutation) used by witnesses. -/
def s60 : TypingTest := TypingTest.init 60 SENTENCES

/-- C1: for every reachable session, `correctWords + incorrectWords =
wordsTyped` and `cursor = wordsTyped`; and across any single operation
(`check_word`, `start_countdown`, or a successful `update_countdown`) each of
the counters `wordsTyped`, `correctWords`, `incorrectWords`,
`totalKeystrokes` and the cursor is monotonically non-decreasing.
Non-negativity holds because the counters are naturals in the model: in the
source they start at `0` and, as proved here, never decrease. -/
theorem claim_C1_counter_invariants (s t : TypingTest) (h : Reachable s)
    (hst : StepRel s t) :
    (s.correct_words + s.incorrect_words = s.words_typed ∧
     s.current_word_index = s.words_typed) ∧
    (s.words_typed ≤ t.words_typed ∧ s.correct_words ≤ t.correct_words ∧
     s.incorrect_words ≤ t.incorrect_words ∧ s.total_keystrokes ≤ t.total_keystrokes ∧
     s.current_word_index ≤ t.current_word_index) := by
  have hInv := reachable_inv s h
  refine ⟨⟨hInv.1, hInv.2.1⟩, ?_⟩
  cases hst with
  | submit w now perm =>
    refine ⟨by rw [check_word_words_typed]; omega, ?_, ?_,
      by rw [check_word_total_keystrokes]; omega,
      by rw [check_word_current_word_index]; omega⟩
    · rw [check_word_correct_words]; split <;> omega
    · rw [check_word_incorrect_words]; split <;> omega
  | start now =>
    rw [start_countdown_def]
    split
    · exact ⟨le_refl _, le_refl _, le_refl _, le_refl _, le_refl _⟩
    · exact ⟨le_refl _, le_refl _, le_refl _, le_refl _, le_refl _⟩
  | tick t now hu =>
    obtain ⟨e1, e2, e3, e4, e5, e6, e7, e8⟩ := update_countdown_preserves s t now hu
    omega

/-- Witness for C1 at a concrete reachable session and a concrete step. -/
theorem claim_C1_counter_invariants_witness :
    (s60.correct_words + s60.incorrect_words = s60.words_typed ∧
     s60.current_word_index = s60.words_typed) ∧
    (s60.words_typed ≤ (s60.check_word "x" 0 SENTENCES).words_typed ∧
     s60.correct_words ≤ (s60.check_word "x" 0 SENTENCES).correct_words ∧
     s60.incorrect_words ≤ (s60.check_word "x" 0 SENTENCES).incorrect_words ∧
     s60.total_keystrokes ≤ (s60.check_word "x" 0 SENTENCES).total_keystrokes ∧
     s60.current_word_index ≤ (s60.check_word "x" 0 SENTENCES).current_word_index) :=
  claim_C1_counter_invariants s60 (s60.check_word "x" 0 SENTENCES)
    (Reachable.init 60 SENTENCES (List.Perm.refl _))
    (StepRel.submit s60 "x" 0 SENTENCES)

namespace TypingTest

/-- The stream slot at the cursor after a `check_word`: the expected word
wrapped in its judgement marker. -/
theorem check_word_words_at_cursor (s : TypingTest) (w : String) (now : ℚ)
    (perm : List String) (h : s.current_word_index < s.words.length) :
    (s.check_word w now perm).words[s.current_word_index]? =
      some (marked_word (s.words.get ⟨s.current_word_index, h⟩) w) := by
  have hd : s.words.getD s.current_word_index "" = s.words.get ⟨s.current_word_index, h⟩ :=
    List.getD_eq_getElem s.words "" h
  rw [check_word_words]
  dsimp only
  split
  · rw [List.getElem?_append_left (by rw [List.length_set]; exact h),
      List.getElem?_set_self h, hd]
  · rw [List.getElem?_set_self h, hd]

/-- A `check_word` leaves every stream slot other than the cursor slot
unchanged (the refill only appends). -/
theorem check_word_words_other (s : TypingTest) (w : String) (now : ℚ)
    (perm : List String) (i : ℕ) (hi : i < s.words.length)
    (hne : i ≠ s.current_word_index) :
    (s.check_word w now perm).words[i]? = s.words[i]? := by
  rw [check_word_words]
  dsimp only
  split
  · rw [List.getElem?_append_left (by rw [List.length_set]; exact hi),
      List.getElem?_set_ne (fun hc => hne hc.symm)]
  · rw [List.getElem?_set_ne (fun hc => hne hc.symm)]

end TypingTest

/-- C6: for any session state with the cursor inside the stream,
`check_word raw` strips `raw` and compares it with the expected word at the
cursor using exact case-sensitive string equality; an exact match marks the
slot Correct (green) and increments `correct_words`, any other string marks
it Incorrect (red) and increments `incorrect_words`; in both cases it
increments `words_typed`, adds `length raw + 1` to `total_keystrokes`, and
advances the cursor by one. -/
theorem claim_C6_submit_word_judgement (s : TypingTest) (w : String) (now : ℚ)
    (perm : List String) (h : s.current_word_index < s.words.length) :
    (s.check_word w now perm).total_keystrokes = s.total_keystrokes + w.length + 1 ∧
    (s.check_word w now perm).words_typed = s.words_typed + 1 ∧
    (s.check_word w now perm).current_word_index = s.current_word_index + 1 ∧
    (pyStrip w = s.words.get ⟨s.current_word_index, h⟩ →
      (s.check_word w now perm).correct_words = s.correct_words + 1 ∧
      (s.check_word w now perm).incorrect_words = s.incorrect_words ∧
      (s.check_word w now perm).words[s.current_word_index]? =
        some ("[green]" ++ s.words.get ⟨s.current_word_index, h⟩ ++ "[/green]")) ∧
    (pyStrip w ≠ s.words.get ⟨s.current_word_index, h⟩ →
      (s.check_word w now perm).correct_words = s.correct_words ∧
      (s.check_word w now perm).incorrect_words = s.incorrect_words + 1 ∧
      (s.check_word w now perm).words[s.current_word_index]? =
        some ("[red]" ++ s.words.get ⟨s.current_word_index, h⟩ ++ "[/red]")) := by
  have hd : s.words.getD s.current_word_index "" = s.words.get ⟨s.current_word_index, h⟩ :=
    List.getD_eq_getElem s.words "" h
  refine ⟨check_word_total_keystrokes s w now perm, check_word_words_typed s w now perm,
    check_word_current_word_index s w now perm, ?_, ?_⟩
  · intro hcorrect
    refine ⟨?_, ?_, ?_⟩
    · rw [check_word_correct_words, hd, if_pos hcorrect]
    · rw [check_word_incorrect_words, hd, if_pos hcorrect]
    · rw [check_word_words_at_cursor s w now perm h, marked_word, if_pos hcorrect]
  · intro hwrong
    refine ⟨?_, ?_, ?_⟩
    · rw [check_word_correct_words, hd, if_neg hwrong]
    · rw [check_word_incorrect_words, hd, if_neg hwrong]
    · rw [check_word_words_at_cursor s w now perm h, marked_word, if_neg hwrong]

/-- Witness for C6: typing the exact first expected word of the concrete
session is judged Correct and wrapped in the green marker. -/
theorem claim_C6_submit_word_judgement_witness :
    (s60.check_word "The" 0 SENTENCES).correct_words = s60.correct_words + 1 ∧
    (s60.check_word "The" 0 SENTENCES).incorrect_words = s60.incorrect_words ∧
    (s60.check_word "The" 0 SENTENCES).words[s60.current_word_index]? =
      some ("[green]" ++ "The" ++ "[/green]") := by
  have hlt : s60.current_word_index < s60.words.length := by decide
  obtain ⟨-, -, -, hc, -⟩ := claim_C6_submit_word_judgement s60 "The" 0 SENTENCES hlt
  have hexp : pyStrip "The" = s60.words.get ⟨0, by decide⟩ := by decide
  obtain ⟨h1, h2, h3⟩ := hc hexp
  refine ⟨h1, h2, ?_⟩
  rw [h3]
  rfl

/-- C7: the word stream never shrinks across `check_word` calls; every batch
the text generator produces (for any permutation drawn by `random.sample`)
is non-empty; and in every reachable session — in particular immediately
after any `check_word` — `length(stream) - cursor ≥ 1`. -/
theorem claim_C7_stream_refill (s u : TypingTest) (w : String) (now : ℚ)
    (perm : List String) (hp : perm.Perm SENTENCES) (hu : Reachable u) :
    s.words.length ≤ (s.check_word w now perm).words.length ∧
    pySplit (generate_text perm) ≠ [] ∧
    1 ≤ (u.check_word w now perm).words.length -
      (u.check_word w now perm).current_word_index := by
  refine ⟨?_, pySplit_generate_text_ne_nil perm hp, ?_⟩
  · rw [check_word_words]
    dsimp only
    have hset :
        (s.words.set s.current_word_index
          (marked_word (s.words.getD s.current_word_index "") w)).length =
          s.words.length := List.length_set _ _ _
    split
    · rw [List.length_append]
      omega
    · omega
  · have hInv := inv_check_word u (reachable_inv u hu) w now perm hp
    have := hInv.2.2.1
    omega

/-- Witness for C7 at the concrete session. -/
theorem claim_C7_stream_refill_witness :
    s60.words.length ≤ (s60.check_word "x" 0 SENTENCES).words.length ∧
    pySplit (generate_text SENTENCES) ≠ [] ∧
    1 ≤ (s60.check_word "x" 0 SENTENCES).words.length -
      (s60.check_word "x" 0 SENTENCES).current_word_index :=
  claim_C7_stream_refill s60 s60 "x" 0 SENTENCES (List.Perm.refl _)
    (Reachable.init 60 SENTENCES (List.Perm.refl _))

/-- C10: in every reachable session every stream slot at or beyond the
cursor is an unmodified generated token (it contains no `[`, whereas every
judged slot is wrapped in a `[green]`/`[red]` marker); a `check_word`
rewrites only the slot at the cursor, replacing the unmodified expected word
there with that word wrapped in its judgement marker exactly once; hence the
equality comparison of `check_word` is always made against an unmodified
generated word. -/
theorem claim_C10_slot_discipline (s : TypingTest) (h : Reachable s) (w : String)
    (now : ℚ) (perm : List String) (i : ℕ) :
    (s.current_word_index ≤ i → ∀ x : String, s.words[i]? = some x →
      ('[' : Char) ∉ x.toList) ∧
    (i < s.words.length → i ≠ s.current_word_index →
      (s.check_word w now perm).words[i]? = s.words[i]?) ∧
    (s.check_word w now perm).words[s.current_word_index]? =
      some (marked_word (s.words.getD s.current_word_index "") w) ∧
    ('[' : Char) ∉ (s.words.getD s.current_word_index "").toList := by
  obtain ⟨h1, h2, h3, h4⟩ := reachable_inv s h
  have hd : s.words.getD s.current_word_index "" =
      s.words.get ⟨s.current_word_index, h3⟩ := List.getD_eq_getElem s.words "" h3
  refine ⟨fun hle x hx => h4 i hle x hx, ?_, ?_, ?_⟩
  · intro hlen hne
    exact check_word_words_other s w now perm i hlen hne
  · rw [check_word_words_at_cursor s w now perm h3, hd]
  · apply h4 s.current_word_index (le_refl _)
    rw [hd]
    exact List.getElem?_eq_getElem h3

/-- Witness for C10 at the concrete session, slot 1. -/
theorem claim_C10_slot_discipline_witness :
    (s60.current_word_index ≤ 1 → ∀ x : String, s60.words[1]? = some x →
      ('[' : Char) ∉ x.toList) ∧
    (1 < s60.words.length → 1 ≠ s60.current_word_index →
      (s60.check_word "x" 0 SENTENCES).words[1]? = s60.words[1]?) ∧
    (s60.check_word "x" 0 SENTENCES).words[s60.current_word_index]? =
      some (marked_word (s60.words.getD s60.current_word_index "") "x") ∧
    ('[' : Char) ∉ (s60.words.getD s60.current_word_index "").toList :=
  claim_C10_slot_discipline s60 (Reachable.init 60 SENTENCES (List.Perm.refl _))
    "x" 0 SENTENCES 1

/-- The percentile curve exactly as the sentence of the specification states it:
`wpm<30 -> wpm/30*25` with no lower clamp, the other branches as written. -/
def percentileClaimed (wpm : ℚ) : ℚ :=
  if wpm < 30 then wpm / 30 * 25
  else if wpm < 60 then 25 + (wpm - 30) / 30 * 25
  else if wpm < 90 then 50 + (wpm - 60) / 30 * 25
  else min (75 + (wpm - 90) / 30 * 25) 99

/-- The percentile curve as the code computes it, stated independently: the
first branch is `max(wpm/30*25, 1)` — the source clamps low percentiles up
to `1`. -/
def percentileAmended (wpm : ℚ) : ℚ :=
  if wpm < 30 then max (wpm / 30 * 25) 1
  else if wpm < 60 then 25 + (wpm - 30) / 30 * 25
  else if wpm < 90 then 50 + (wpm - 60) / 30 * 25
  else min (75 + (wpm - 90) / 30 * 25) 99

/-- C3 counterexample: at `wpm = 0` the source computes
`max(0/30*25, 1) = 1` while the claimed curve value is `0`. -/
theorem claim_C3_percentile_counterexample :
    wpm_to_percentile 0 = 1 ∧ percentileClaimed 0 = 0 ∧
    wpm_to_percentile 0 ≠ percentileClaimed 0 := by
  refine ⟨?_, ?_, ?_⟩ <;> norm_num [wpm_to_percentile, percentileClaimed]

/-- C3 amended: `wpm_to_percentile` equals the piecewise curve with the
first branch amended to `max(wpm/30*25, 1)`; the claimed anchor values
`percentile(30) = 25`, `percentile(90) = 75`, `percentile(150) = 99` hold,
and the result always lies in `[0, 100]`. -/
theorem claim_C3_percentile_curve (wpm : ℚ) :
    wpm_to_percentile wpm = percentileAmended wpm ∧
    wpm_to_percentile 30 = 25 ∧ wpm_to_percentile 90 = 75 ∧
    wpm_to_percentile 150 = 99 ∧
    0 ≤ wpm_to_percentile wpm ∧ wpm_to_percentile wpm ≤ 100 := by
  refine ⟨rfl, by norm_num [wpm_to_percentile], by norm_num [wpm_to_percentile],
    by norm_num [wpm_to_percentile], ?_, ?_⟩
  · unfold wpm_to_percentile
    split_ifs with h1 h2 h3
    · exact le_trans (by norm_num) (le_max_right _ _)
    · have hn : (0:ℚ) ≤ (wpm - 30) / 30 * 25 := by
        have h30 : (0:ℚ) ≤ wpm - 30 := by linarith
        have := div_nonneg h30 (by norm_num : (0:ℚ) ≤ 30)
        linarith
      linarith
    · have hn : (0:ℚ) ≤ (wpm - 60) / 30 * 25 := by
        have h60 : (0:ℚ) ≤ wpm - 60 := by linarith
        have := div_nonneg h60 (by norm_num : (0:ℚ) ≤ 30)
        linarith
      have : (0:ℚ) ≤ 50 + (wpm - 60) / 30 * 25 := by linarith
      exact this
    · refine le_min ?_ (by norm_num)
      have hn : (0:ℚ) ≤ (wpm - 90) / 30 * 25 := by
        have h90 : (0:ℚ) ≤ wpm - 90 := by linarith
        have := div_nonneg h90 (by norm_num : (0:ℚ) ≤ 30)
        linarith
      linarith
  · unfold wpm_to_percentile
    split_ifs with h1 h2 h3
    · refine max_le ?_ (by norm_num)
      rw [div_mul_eq_mul_div, div_le_iff₀ (by norm_num : (0:ℚ) < 30)]
      linarith
    · have hb : (wpm - 30) / 30 * 25 ≤ 25 := by
        rw [div_mul_eq_mul_div, div_le_iff₀ (by norm_num : (0:ℚ) < 30)]
        linarith
      linarith
    · have hb : (wpm - 60) / 30 * 25 ≤ 25 := by
        rw [div_mul_eq_mul_div, div_le_iff₀ (by norm_num : (0:ℚ) < 30)]
        linarith
      linarith
    · exact le_trans (min_le_right _ _) (by norm_num)

theorem count_pyRepeatN (s : String) (c : Char) (n : ℕ) :
    (pyRepeatN s n).toList.count c = n * s.toList.count c := by
  induction n with
  | zero => simp [pyRepeatN, toList_eq_data]
  | succ n ih =>
    show ((s ++ pyRepeatN s n).toList.count c) = _
    rw [toList_append, List.count_append, ih]
    ring

theorem length_pyRepeatN (s : String) (n : ℕ) :
    (pyRepeatN s n).toList.length = n * s.toList.length := by
  induction n with
  | zero => simp [pyRepeatN, toList_eq_data]
  | succ n ih =>
    show ((s ++ pyRepeatN s n).toList.length) = _
    rw [toList_append, List.length_append, ih]
    ring

theorem pyTrunc_intCast_div_five (wpm : ℤ) (hw : 0 ≤ wpm) :
    pyTrunc ((wpm : ℚ) / 5) = wpm / 5 := by
  have hnn : (0:ℚ) ≤ (wpm : ℚ) / 5 :=
    div_nonneg (by exact_mod_cast hw) (by norm_num)
  rw [pyTrunc, if_pos hnn]
  have h5 : ((5:ℚ)) = ((5:ℕ):ℚ) := by norm_num
  rw [h5, Rat.floor_intCast_div_natCast]
  norm_num

theorem graph_bar_spec (wpm : ℤ) (hw : 0 ≤ wpm) :
    ((graph_bar wpm).toList.count '█' : ℤ) = min (wpm / 5) 24 ∧
    (graph_bar wpm).toList.length = 24 := by
  have htr := pyTrunc_intCast_div_five wpm hw
  have hq : (0:ℤ) ≤ wpm / 5 := Int.ediv_nonneg hw (by norm_num)
  have c1 : ("█" : String).toList.count '█' = 1 := by decide
  have c2 : ("▒" : String).toList.count '█' = 0 := by decide
  have c3 : ("░" : String).toList.count '█' = 0 := by decide
  have l1 : ("█" : String).toList.length = 1 := by decide
  have l2 : ("▒" : String).toList.length = 1 := by decide
  have l3 : ("░" : String).toList.length = 1 := by decide
  unfold graph_bar
  dsimp only
  rw [htr]
  set f : ℤ := min (wpm / 5) 24 with hf
  have hf0 : 0 ≤ f := le_min hq (by norm_num)
  have hf24 : f ≤ 24 := min_le_right _ _
  have htn : (f.toNat : ℤ) = f := Int.toNat_of_nonneg hf0
  by_cases hlt : f < 24
  · rw [if_pos hlt]
    constructor
    · rw [toList_append, toList_append, List.count_append, List.count_append,
        pyRepeat, pyRepeat, count_pyRepeatN, count_pyRepeatN, c1, c2, c3]
      push_cast
      omega
    · rw [toList_append, toList_append, List.length_append, List.length_append,
        pyRepeat, pyRepeat, length_pyRepeatN, length_pyRepeatN, l1, l2, l3]
      omega
  · rw [if_neg hlt]
    have hfeq : f = 24 := le_antisymm hf24 (not_lt.mp hlt)
    constructor
    · rw [pyRepeat, count_pyRepeatN, c1]
      omega
    · rw [pyRepeat, length_pyRepeatN, l1]
      omega

/-- C9: the performance graph is a pure function of `wpm`: its bar line has
exactly `min(floor(wpm/5), 24)` filled `█` cells within a total width of 24
cells, and its qualitative comment is selected by the percentile bucket of
`wpm` (`<25` encouragement, `<50` progress, `<75` above-average, `>=75`
top-performer); the full graph is assembled from the header, the bar, the
marker line and the comment. -/
theorem claim_C9_performance_graph (wpm : ℤ) (hw : 0 ≤ wpm) :
    ((graph_bar wpm).toList.count '█' : ℤ) = min (wpm / 5) 24 ∧
    (graph_bar wpm).toList.length = 24 ∧
    (wpm_to_percentile (wpm : ℚ) < 25 →
      graph_comment wpm = "Keep practicing! You\x27re on your way to improvement.") ∧
    (25 ≤ wpm_to_percentile (wpm : ℚ) → wpm_to_percentile (wpm : ℚ) < 50 →
      graph_comment wpm = "Good effort! You\x27re making progress.") ∧
    (50 ≤ wpm_to_percentile (wpm : ℚ) → wpm_to_percentile (wpm : ℚ) < 75 →
      graph_comment wpm = "Great job! You\x27re above average.") ∧
    (75 ≤ wpm_to_percentile (wpm : ℚ) →
      graph_comment wpm = "Excellent! You\x27re among the top performers.") ∧
    create_percentile_graph wpm =
      "Your performance:\n" ++ "0    30   60   90   120 WPM\n" ++
      "│    │    │    │    │\n" ++ graph_bar wpm ++ "│\n" ++
      "│    │    │    │    │\n" ++ graph_marker wpm ++ "\n" ++
      "Your WPM: " ++ toString wpm ++ " (Estimated " ++
      pyFormat0f (wpm_to_percentile (wpm : ℚ)) ++ "th percentile)\n\n" ++
      graph_comment wpm := by
  obtain ⟨hc, hl⟩ := graph_bar_spec wpm hw
  refine ⟨hc, hl, ?_, ?_, ?_, ?_, rfl⟩
  · intro h1
    unfold graph_comment
    rw [if_pos h1]
  · intro h1 h2
    unfold graph_comment
    rw [if_neg (not_lt.mpr h1), if_pos h2]
  · intro h1 h2
    unfold graph_comment
    rw [if_neg (not_lt.mpr (by linarith)), if_neg (not_lt.mpr h1), if_pos h2]
  · intro h1
    unfold graph_comment
    rw [if_neg (not_lt.mpr (by linarith)), if_neg (not_lt.mpr (by linarith)),
      if_neg (not_lt.mpr h1)]

/-- Witness for C9 at `wpm = 37`. -/
theorem claim_C9_performance_graph_witness :
    ((graph_bar 37).toList.count '█' : ℤ) = min (37 / 5) 24 ∧
    (graph_bar 37).toList.length = 24 ∧
    (wpm_to_percentile ((37:ℤ) : ℚ) < 25 →
      graph_comment 37 = "Keep practicing! You\x27re on your way to improvement.") ∧
    (25 ≤ wpm_to_percentile ((37:ℤ) : ℚ) → wpm_to_percentile ((37:ℤ) : ℚ) < 50 →
      graph_comment 37 = "Good effort! You\x27re making progress.") ∧
    (50 ≤ wpm_to_percentile ((37:ℤ) : ℚ) → wpm_to_percentile ((37:ℤ) : ℚ) < 75 →
      graph_comment 37 = "Great job! You\x27re above average.") ∧
    (75 ≤ wpm_to_percentile ((37:ℤ) : ℚ) →
      graph_comment 37 = "Excellent! You\x27re among the top performers.") ∧
    create_percentile_graph 37 =
      "Your performance:\n" ++ "0    30   60   90   120 WPM\n" ++
      "│    │    │    │    │\n" ++ graph_bar 37 ++ "│\n" ++
      "│    │    │    │    │\n" ++ graph_marker 37 ++ "\n" ++
      "Your WPM: " ++ toString (37:ℤ) ++ " (Estimated " ++
      pyFormat0f (wpm_to_percentile ((37:ℤ) : ℚ)) ++ "th percentile)\n\n" ++
      graph_comment 37 :=
  claim_C9_performance_graph 37 (by norm_num)

/-- C4 evidence: `calculate_wpm` does return `0` while the clock has not
started, but at the failing input — a started session queried at the exact
start instant, so elapsed time is `0` — the source computes
`words_typed / (0 / 60)` and raises `ZeroDivisionError` (modelled `none`)
instead of returning `0` as the specification requires. -/
theorem claim_C4_wpm_division_by_zero :
    s60.calculate_wpm 100 = some 0 ∧
    (s60.check_word "x" 100 SENTENCES).start_time = some 100 ∧
    (s60.check_word "x" 100 SENTENCES).calculate_wpm 100 = none := by
  have hns : ¬ pyTruthy s60.start_time := fun h => h
  have hst : (s60.check_word "x" 100 SENTENCES).start_time = some 100 := by
    rw [check_word_start_time, if_neg hns]
  refine ⟨calculate_wpm_not_started s60 100 hns, hst, ?_⟩
  exact calculate_wpm_div_by_zero _ 100 hst (by norm_num)

/-- C8 counterexample: construction with duration `0` does not fail; it
returns a session with countdown `0` that processes a word submission
normally — there is no fail-fast validation in `__init__`. -/
theorem claim_C8_no_fail_fast_counterexample :
    (TypingTest.init 0 SENTENCES).countdown = 0 ∧
    ((TypingTest.init 0 SENTENCES).check_word "x" 0 SENTENCES).words_typed = 1 ∧
    ((TypingTest.init 0 SENTENCES).check_word "x" 0 SENTENCES).current_word_index = 1 := by
  refine ⟨rfl, ?_, ?_⟩
  · rw [check_word_words_typed]; rfl
  · rw [check_word_current_word_index]; rfl

/-- C8 amended: `__init__` performs no validation of the duration: for any
non-positive duration it still constructs a usable session — the countdown
starts at that duration, the stream is non-empty, and a `check_word` is
processed normally. -/
theorem claim_C8_construction_no_validation (d : ℤ) (_hd : d ≤ 0) (w : String)
    (now : ℚ) (perm refill : List String) (hp : perm.Perm SENTENCES) :
    (TypingTest.init d perm).countdown = d ∧
    (TypingTest.init d perm).current_word_index <
      (TypingTest.init d perm).words.length ∧
    ((TypingTest.init d perm).check_word w now refill).words_typed = 1 ∧
    ((TypingTest.init d perm).check_word w now refill).current_word_index = 1 := by
  refine ⟨rfl, (inv_init d perm hp).2.2.1, ?_, ?_⟩
  · rw [check_word_words_typed]; rfl
  · rw [check_word_current_word_index]; rfl

/-- Witness for the amended C8 at duration `0`. -/
theorem claim_C8_construction_no_validation_witness :
    (TypingTest.init 0 SENTENCES).countdown = 0 ∧
    (TypingTest.init 0 SENTENCES).current_word_index <
      (TypingTest.init 0 SENTENCES).words.length ∧
    ((TypingTest.init 0 SENTENCES).check_word "y" 0 SENTENCES).words_typed = 1 ∧
    ((TypingTest.init 0 SENTENCES).check_word "y" 0 SENTENCES).current_word_index = 1 :=
  claim_C8_construction_no_validation 0 (le_refl 0) "y" 0 SENTENCES SENTENCES
    (List.Perm.refl _)

/-- A duration-1 session whose clock was started explicitly at time 100. -/
def eStarted : TypingTest := (TypingTest.init 1 SENTENCES).start_countdown 100

theorem eStarted_start_time : eStarted.start_time = some 100 := rfl

theorem eStarted_calculate_wpm : eStarted.calculate_wpm 101 = some 0 := by
  rw [calculate_wpm_started eStarted 101 100 eStarted_start_time (by norm_num)
    (by norm_num)]
  have hw : eStarted.words_typed = 0 := rfl
  rw [hw]
  norm_num [pyTrunc]

theorem eStarted_trunc : eStarted.test_duration ≤ pyTrunc ((101:ℚ) - 100) ∧
    pyTrunc ((101:ℚ) - 100) = 1 := by
  have h1 : pyTrunc ((101:ℚ) - 100) = 1 := by norm_num [pyTrunc]
  exact ⟨by rw [h1]; decide, h1⟩

/-- C2 counterexample: a concrete session reaches `Ended` (its `tick`
observes countdown `0`), yet the next `check_word` is not a no-op: it still
increments `words_typed` and advances the cursor, because the source has no
ended-state guard in `check_word`. -/
theorem claim_C2_no_guard_counterexample :
    (eStarted.update_countdown 101).map
      (fun e => (e.countdown, e.words_typed,
        (e.check_word "x" 102 SENTENCES).words_typed,
        (e.check_word "x" 102 SENTENCES).current_word_index)) =
      some (0, 0, 1, 1) := by
  have hr := sessionResult_of_wpm eStarted 101 0 eStarted_calculate_wpm
  rw [update_countdown_ended eStarted 101 100 eStarted_start_time
    (by have := eStarted_trunc; omega) _ hr]
  rfl

/-- C2 amended: after the session has ended (a tick at or past the deadline),
`update_countdown` keeps the countdown at `0` and changes no counters, word
states or cursor (only the displayed end screen); but `check_word` is NOT
guarded: it still increments `words_typed` and `total_keystrokes` and
advances the cursor exactly as during the running phase.  Only discarding
the widget (a reset) stops submissions from mutating the session. -/
theorem claim_C2_ended_behavior (s : TypingTest) (st now2 now3 : ℚ) (w : String)
    (perm : List String) (h : s.start_time = some st) (hst : st ≠ 0)
    (hd : 0 < s.test_duration) (hnow : (s.test_duration : ℚ) ≤ now2 - st) :
    (s.update_countdown now2).map
      (fun e => (e.countdown, e.words_typed, e.correct_words, e.incorrect_words,
        e.total_keystrokes, e.current_word_index, e.words)) =
      some (0, s.words_typed, s.correct_words, s.incorrect_words,
        s.total_keystrokes, s.current_word_index, s.words) ∧
    (s.check_word w now3 perm).words_typed = s.words_typed + 1 ∧
    (s.check_word w now3 perm).current_word_index = s.current_word_index + 1 ∧
    (s.check_word w now3 perm).total_keystrokes = s.total_keystrokes + w.length + 1 := by
  have hdq : (0:ℚ) < s.test_duration := by exact_mod_cast hd
  have hne : now2 ≠ st := by
    intro hq
    rw [hq, sub_self] at hnow
    linarith
  have hwpm := calculate_wpm_started s now2 st h hst hne
  have hr := sessionResult_of_wpm s now2 _ hwpm
  have h0 : (0:ℚ) ≤ now2 - st := by linarith
  have htr : s.test_duration ≤ pyTrunc (now2 - st) := by
    rw [pyTrunc, if_pos h0]
    exact Int.le_floor.mpr hnow
  rw [update_countdown_ended s now2 st h (by omega) _ hr]
  exact ⟨rfl, check_word_words_typed s w now3 perm,
    check_word_current_word_index s w now3 perm,
    check_word_total_keystrokes s w now3 perm⟩

/-- Witness for the amended C2 at the concrete ended session. -/
theorem claim_C2_ended_behavior_witness :
    (eStarted.update_countdown 101).map
      (fun e => (e.countdown, e.words_typed, e.correct_words, e.incorrect_words,
        e.total_keystrokes, e.current_word_index, e.words)) =
      some (0, eStarted.words_typed, eStarted.correct_words, eStarted.incorrect_words,
        eStarted.total_keystrokes, eStarted.current_word_index, eStarted.words) ∧
    (eStarted.check_word "x" 102 SENTENCES).words_typed = eStarted.words_typed + 1 ∧
    (eStarted.check_word "x" 102 SENTENCES).current_word_index =
      eStarted.current_word_index + 1 ∧
    (eStarted.check_word "x" 102 SENTENCES).total_keystrokes =
      eStarted.total_keystrokes + "x".length + 1 :=
  claim_C2_ended_behavior eStarted 100 101 102 "x" SENTENCES eStarted_start_time
    (by norm_num) (by decide)
    (by rw [show eStarted.test_duration = 1 from rfl]; norm_num)

/-- A duration-1 session in which one (incorrect) word was typed at 100. -/
def tTyped : TypingTest := (TypingTest.init 1 SENTENCES).check_word "x" 100 SENTENCES

theorem calculate_wpm_set_cd (s : TypingTest) (c : ℤ) (dsp : String) (now : ℚ) :
    ({ s with countdown := c, display := dsp } : TypingTest).calculate_wpm now =
      s.calculate_wpm now := rfl

theorem tTyped_wpm_at_101 : tTyped.calculate_wpm 101 = some 60 := by
  rw [calculate_wpm_started tTyped 101 100 rfl (by norm_num) (by norm_num),
    show tTyped.words_typed = 1 from rfl]
  norm_num [pyTrunc]

theorem tTyped_wpm_at_102 : tTyped.calculate_wpm 102 = some 30 := by
  rw [calculate_wpm_started tTyped 102 100 rfl (by norm_num) (by norm_num),
    show tTyped.words_typed = 1 from rfl]
  norm_num [pyTrunc]

/-- C5 counterexample: the concrete duration-1 session with one typed word
ends at the tick at time 101 with a final WPM of 60; a second tick at time
102 recomputes the end screen with a final WPM of 30 — the `SessionResult`
is not produced exactly once and repeated ticks change it. -/
theorem claim_C5_result_changes_counterexample :
    (tTyped.sessionResult 101).map SessionResult.wpm = some 60 ∧
    ((tTyped.update_countdown 101).bind
      (fun e => (e.sessionResult 102).map SessionResult.wpm)) = some 30 ∧
    ((tTyped.update_countdown 101).bind
      (fun e => (e.update_countdown 102).map
        (fun e2 => (e2.countdown, e2.words_typed)))) = some (0, 1) := by
  have htr1 : pyTrunc ((101:ℚ) - 100) = 1 := by norm_num [pyTrunc]
  have htr2 : pyTrunc ((102:ℚ) - 100) = 2 := by norm_num [pyTrunc]
  have hr1 := sessionResult_of_wpm tTyped 101 60 tTyped_wpm_at_101
  have hu1 := update_countdown_ended tTyped 101 100 rfl
    (by rw [show tTyped.test_duration = 1 from rfl, htr1]; norm_num) _ hr1
  refine ⟨by rw [hr1]; rfl, ?_, ?_⟩
  · rw [hu1, Option.some_bind,
      sessionResult_of_wpm _ 102 30
        (by rw [calculate_wpm_set_cd]; exact tTyped_wpm_at_102)]
    rfl
  · rw [hu1, Option.some_bind,
      update_countdown_ended _ 102 100 rfl
        (by show (1:ℤ) - pyTrunc ((102:ℚ) - 100) ≤ 0; rw [htr2]; norm_num) _
        (sessionResult_of_wpm _ 102 30
          (by rw [calculate_wpm_set_cd]; exact tTyped_wpm_at_102))]
    rfl

/-- C5 amended: a tick at or past the deadline of a started session ends it:
the countdown becomes `0`, no counter changes, and the end screen is
rendered from a `SessionResult` computed at the clock value of THAT tick —
its word counts and keystrokes equal the session counters, but its final
WPM is `trunc(wordsTyped / ((now - start)/60))`, a function of `now`.  The
post-tick state keeps the same start instant, duration and counters (last
three conjuncts), so this theorem applies again to any later tick, which
therefore re-renders the end screen from a freshly computed result: the
`SessionResult` is not produced exactly once, and (as the counterexample
shows) it changes between ticks. -/
theorem claim_C5_tick_recomputes_result (s : TypingTest) (st now : ℚ)
    (h : s.start_time = some st) (hst : st ≠ 0) (hd : 0 < s.test_duration)
    (h1 : (s.test_duration : ℚ) ≤ now - st) :
    ∃ r : SessionResult,
      s.sessionResult now = some r ∧
      s.update_countdown now = some { s with countdown := 0, display := end_message r } ∧
      r.correct_words = s.correct_words ∧ r.incorrect_words = s.incorrect_words ∧
      r.total_keystrokes = s.total_keystrokes ∧
      r.wpm = pyTrunc ((s.words_typed : ℚ) / ((now - st) / 60)) ∧
      ({ s with countdown := 0, display := end_message r } : TypingTest).start_time =
        some st ∧
      ({ s with countdown := 0, display := end_message r } : TypingTest).test_duration =
        s.test_duration ∧
      ({ s with countdown := 0, display := end_message r } : TypingTest).words_typed =
        s.words_typed := by
  have hdq : (0:ℚ) < s.test_duration := by exact_mod_cast hd
  have hne : now ≠ st := by intro hq; rw [hq, sub_self] at h1; linarith
  have hwpm := calculate_wpm_started s now st h hst hne
  have hr := sessionResult_of_wpm s now _ hwpm
  have htr : s.test_duration ≤ pyTrunc (now - st) := by
    rw [pyTrunc, if_pos (by linarith : (0:ℚ) ≤ now - st)]
    exact Int.le_floor.mpr h1
  exact ⟨_, hr, update_countdown_ended s now st h (by omega) _ hr,
    rfl, rfl, rfl, rfl, h, rfl, rfl⟩

/-- Witness for the amended C5 at the concrete session and tick time 101. -/
theorem claim_C5_tick_recomputes_result_witness :
    ∃ r : SessionResult,
      tTyped.sessionResult 101 = some r ∧
      tTyped.update_countdown 101 =
        some { tTyped with countdown := 0, display := end_message r } ∧
      r.correct_words = tTyped.correct_words ∧ r.incorrect_words = tTyped.incorrect_words ∧
      r.total_keystrokes = tTyped.total_keystrokes ∧
      r.wpm = pyTrunc ((tTyped.words_typed : ℚ) / ((101 - 100) / 60)) ∧
      ({ tTyped with countdown := 0, display := end_message r } : TypingTest).start_time =
        some 100 ∧
      ({ tTyped with countdown := 0, display := end_message r } : TypingTest).test_duration =
        tTyped.test_duration ∧
      ({ tTyped with countdown := 0, display := end_message r } : TypingTest).words_typed =
        tTyped.words_typed :=
  claim_C5_tick_recomputes_result tTyped 100 101 rfl (by norm_num) (by decide)
    (by rw [show tTyped.test_duration = 1 from rfl]; norm_num)
